import Mathlib

/-!
Shallow embedding of the DisplayFPSTracker repository: the per-second FPS
sampling loop and CLI handling of `fps_tracker.py`, and the CSV analysis
pass of `csv_plotter.py` (column classification, Z-score anomaly
detection, delimiter-fallback loading).

Modelling conventions.  Real numbers produced by the Python code are
modelled by rationals.  The Z-score test `abs(v - mean) / std > t` of
`detect_anomalies` is embedded in its squared form
`(v - mean)^2 > t^2 * var`: for the nonnegative threshold the program
uses (3.0) and positive variance these are equivalent over the reals,
and the squared form avoids an irrational square root while keeping the
definition executable.  pandas `Series.std()` defaults to `ddof=1`, so
`var` here is the Bessel-corrected sample variance with divisor `n - 1`.
-/

namespace FpsSpec

/-! ## csv_plotter.py : anomaly detection (`detect_anomalies`) -/

/-- Column mean, `series.mean()` over the observed (non-missing) rows. -/
def mean (xs : List ℚ) : ℚ := xs.sum / (xs.length : ℚ)

/-- The square of `series.std()`: pandas' default sample variance with
Bessel correction, divisor `n - 1` (natural subtraction; for `n ≤ 1` the
divisor is `0` and the quotient is `0`, matching the observable all-false
mask pandas produces through NaN propagation in those degenerate cases). -/
def sampleVar (xs : List ℚ) : ℚ :=
  (xs.map (fun x => (x - mean xs) ^ 2)).sum / ((xs.length - 1 : ℕ) : ℚ)

/-- The constant `ANOMALY_THRESHOLD_Z_SCORE = 3.0` of `csv_plotter.py`. -/
def ANOMALY_THRESHOLD_Z_SCORE : ℚ := 3

/-- `detect_anomalies(df, numeric_col, threshold)`: if the standard
deviation is zero, return an all-false mask of the column's length;
otherwise flag exactly the values whose squared deviation from the mean
exceeds `threshold^2` times the variance (the squared form of
`abs((v - mean) / std) > threshold`).  `std = 0` iff `var = 0`, so the
guard is tested on the variance. -/
def detect_anomalies (xs : List ℚ) (threshold : ℚ) : List Bool :=
  if sampleVar xs = 0 then List.replicate xs.length false
  else xs.map (fun v => decide ((v - mean xs) ^ 2 > threshold ^ 2 * sampleVar xs))

/-- Follows the spec's words (claim C1): population variance, the square
of the population standard deviation sqrt(mean squared deviation over all
observed rows). -/
def popVar (xs : List ℚ) : ℚ :=
  (xs.map (fun x => (x - mean xs) ^ 2)).sum / (xs.length : ℚ)

/-- Fixture column for claim C1: five values `-1`, five values `1`, and
one value `10` at index 10.  Mean is `10/11`; the population z-score of
the value `10` exceeds `3` while the sample (`ddof=1`) z-score does not. -/
def fixtureC1 : List ℚ := [-1, -1, -1, -1, -1, 1, 1, 1, 1, 1, 10]

/-- Claim C1, counterexample: on the concrete column `fixtureC1`, the
value `10` (index 10) satisfies the spec's population-deviation test
`abs (v - mean) / popStd > 3` — stated in squared form, valid here since
the population variance is positive — yet `detect_anomalies` does not
flag it, because the code's `series.std()` is the sample standard
deviation (divisor `n - 1`), not the population one.  So the claim "flags
exactly when the population z-score exceeds 3" is false on the code. -/
theorem claim_C1_counterexample :
    0 < popVar fixtureC1 ∧
    ((10 : ℚ) - mean fixtureC1) ^ 2 > ANOMALY_THRESHOLD_Z_SCORE ^ 2 * popVar fixtureC1 ∧
    fixtureC1.getD 10 0 = 10 ∧
    (detect_anomalies fixtureC1 ANOMALY_THRESHOLD_Z_SCORE).getD 10 false = false := by
  refine ⟨by norm_num [popVar, mean, fixtureC1], ?_, by norm_num [fixtureC1], ?_⟩
  · norm_num [popVar, mean, fixtureC1, ANOMALY_THRESHOLD_Z_SCORE]
  · norm_num [detect_anomalies, sampleVar, mean, fixtureC1, ANOMALY_THRESHOLD_Z_SCORE]

/-- elements of an all-false replicate mask read back as `false`. -/
lemma getD_replicate_false (n i : ℕ) : (List.replicate n false).getD i false = false := by
  induction n generalizing i with
  | zero => simp [List.getD]
  | succ n ih =>
    cases i with
    | zero => simp [List.replicate]
    | succ i => simp only [List.replicate, List.getD_cons_succ]; exact ih i

/-- reading a mapped list at an in-bounds index. -/
lemma getD_map_eq (f : ℚ → Bool) (xs : List ℚ) (i : ℕ) (hi : i < xs.length) :
    (xs.map f).getD i false = f (xs.getD i 0) := by
  induction xs generalizing i with
  | nil => simp at hi
  | cons x xs ih =>
    cases i with
    | zero => simp [List.getD]
    | succ i =>
      simp only [List.map, List.getD_cons_succ]
      exact ih i (by simpa using hi)

/-- Claim C1, amended: `detect_anomalies` returns a mask aligned 1:1 with
the column, and flags a row value exactly when the sample variance is
nonzero and the squared deviation of the value from the mean exceeds
`threshold^2` times the *sample* variance (divisor `n - 1`, pandas'
default `ddof=1`) — equivalently, over the reals, when
`abs (v - mean) / sampleStd > threshold` for the program's nonnegative
threshold. -/
theorem claim_C1_amended (xs : List ℚ) (t : ℚ) :
    (detect_anomalies xs t).length = xs.length ∧
    ∀ i, i < xs.length →
      ((detect_anomalies xs t).getD i false = true ↔
        (sampleVar xs ≠ 0 ∧ (xs.getD i 0 - mean xs) ^ 2 > t ^ 2 * sampleVar xs)) := by
  constructor
  · unfold detect_anomalies
    split <;> simp
  · intro i hi
    unfold detect_anomalies
    by_cases h : sampleVar xs = 0
    · rw [if_pos h]
      simp [getD_replicate_false, h]
    · rw [if_neg h, getD_map_eq _ _ _ hi]
      simp [h]

/-- Claim C1, amended, witness at a concrete column and index. -/
theorem claim_C1_amended_witness :
    (detect_anomalies [0, 0, 9] 3).getD 2 false = true ↔
      (sampleVar [0, 0, 9] ≠ 0 ∧ (([0, 0, 9] : List ℚ).getD 2 0 - mean [0, 0, 9]) ^ 2 >
        (3 : ℚ) ^ 2 * sampleVar [0, 0, 9]) :=
  (claim_C1_amended [0, 0, 9] 3).2 2 (by norm_num)

/-- Claim C3: a column whose values are all equal has sample variance
zero, and `detect_anomalies` returns the all-false mask of the column's
length (taking the early branch, so the z-score division is never
reached); in particular the mask is aligned 1:1 with the rows. -/
theorem claim_C3 (xs : List ℚ) (c t : ℚ) (h : ∀ x ∈ xs, x = c) :
    sampleVar xs = 0 ∧
    detect_anomalies xs t = List.replicate xs.length false ∧
    (detect_anomalies xs t).length = xs.length := by
  have hvar : sampleVar xs = 0 := by
    unfold sampleVar
    have hsum : (xs.map (fun x => (x - mean xs) ^ 2)).sum = 0 := by
      rcases List.eq_nil_or_concat xs with hnil | _
      · simp [hnil]
      · have hlen : xs.length ≠ 0 := by
          intro h0
          rw [List.length_eq_zero] at h0
          subst h0
          simp_all
        have hmean : mean xs = c := by
          unfold mean
          rw [List.sum_eq_card_nsmul xs c h, nsmul_eq_mul]
          have hl : (xs.length : ℚ) ≠ 0 := by exact_mod_cast hlen
          field_simp
        apply List.sum_eq_zero
        intro y hy
        obtain ⟨x, hx, rfl⟩ := List.mem_map.mp hy
        rw [h x hx, hmean]
        ring
    rw [hsum]
    simp
  refine ⟨hvar, ?_, ?_⟩
  · unfold detect_anomalies
    rw [if_pos hvar]
  · unfold detect_anomalies
    rw [if_pos hvar]
    simp

/-- Claim C3, witness: the constant column `[2, 2, 2]`. -/
theorem claim_C3_witness :
    sampleVar [2, 2, 2] = 0 ∧
    detect_anomalies [2, 2, 2] 3 = List.replicate ([2, 2, 2] : List ℚ).length false ∧
    (detect_anomalies [2, 2, 2] 3).length = ([2, 2, 2] : List ℚ).length :=
  claim_C3 [2, 2, 2] 2 3 (by norm_num)

/-! ## csv_plotter.py : column classification and loading -/

/-- ASCII lowercasing of one character, modelling Python `str.lower` on
the ASCII range (the only range the program's comparisons depend on). -/
def asciiLower (c : Char) : Char :=
  if 65 ≤ c.toNat ∧ c.toNat ≤ 90 then Char.ofNat (c.toNat + 32) else c

/-- Python `s.lower()`, per-character ASCII lowercasing. -/
def pyLower (s : String) : String := String.mk (s.data.map asciiLower)

/-- whether `pat` occurs at the start of `l`. -/
def seqStarts : List Char → List Char → Bool
  | [], _ => true
  | _ :: _, [] => false
  | p :: ps, c :: cs => p == c && seqStarts ps cs

/-- whether `pat` occurs contiguously anywhere in `l` (Python `in`). -/
def seqContains (pat : List Char) : List Char → Bool
  | [] => pat.isEmpty
  | c :: cs => seqStarts pat (c :: cs) || seqContains pat cs

/-- The test `'time' in col.lower()` of `find_timestamp_column`. -/
def containsTime (c : String) : Bool := seqContains "time".data (pyLower c).data

/-- `find_timestamp_column(df)`: the first column name containing the
case-insensitive substring `"time"`, else `None`. -/
def find_timestamp_column (names : List String) : Option String :=
  names.find? containsTime

/-- A table column as the classifier sees it: its name and whether pandas
inferred a numeric dtype for it (`select_dtypes(include=np.number)`). -/
structure Column where
  name : String
  numeric : Bool

/-- The names of the numeric-typed columns, in declared order. -/
def numericNames (cols : List Column) : List String :=
  (cols.filter (fun c => c.numeric)).map (fun c => c.name)

/-- `find_numeric_columns(df, time_col)`: all numeric-dtype columns; if
the chosen time column is among them it is removed (`list.remove`, first
occurrence), mirroring `if time_col in numeric_cols`. -/
def find_numeric_columns (cols : List Column) (timeCol : Option String) : List String :=
  match timeCol with
  | none => numericNames cols
  | some t =>
    if t ∈ numericNames cols then (numericNames cols).erase t else numericNames cols

/-- The x-axis `main` ends up plotting against: the detected time column,
or the row-ordinal index when none was found. -/
inductive XAxis
  | column (name : String)
  | ordinal

/-- The branch of `main` that picks the x-axis: `df.set_index(time_col)`
when a time column exists, `df.reset_index()` (ordinal positions)
otherwise. -/
def chooseXAxis : Option String → XAxis
  | some c => XAxis.column c
  | none => XAxis.ordinal

/-- Result of the analysis run after column detection in `main`. -/
inductive AnalyzerOutcome
  | errorNoPlots
  | plots (cols : List String)

/-- The column-detection stage of `main`: classify columns, then abort
with an error (producing no plots) when no numeric column remains. -/
def analyze (cols : List Column) : AnalyzerOutcome :=
  if (find_numeric_columns cols (find_timestamp_column (cols.map Column.name))).isEmpty then
    AnalyzerOutcome.errorNoPlots
  else
    AnalyzerOutcome.plots (find_numeric_columns cols (find_timestamp_column (cols.map Column.name)))

/-- equation lemma: no time column leaves the numeric set unchanged. -/
lemma find_numeric_columns_none (cols : List Column) :
    find_numeric_columns cols none = numericNames cols := rfl

/-- equation lemma: a chosen time column is removed when it is numeric. -/
lemma find_numeric_columns_some (cols : List Column) (t : String) :
    find_numeric_columns cols (some t) =
      if t ∈ numericNames cols then (numericNames cols).erase t else numericNames cols := rfl

/-- a successful `find?` splits the list at the first satisfying element. -/
lemma find?_eq_some_split {α : Type} (p : α → Bool) :
    ∀ (l : List α) (c : α), l.find? p = some c →
      ∃ pre post, l = pre ++ c :: post ∧ p c = true ∧ ∀ b ∈ pre, p b = false := by
  intro l
  induction l with
  | nil => intro c h; simp [List.find?] at h
  | cons a l ih =>
    intro c h
    by_cases hp : p a = true
    · rw [List.find?_cons_of_pos _ hp] at h
      obtain rfl : a = c := Option.some.inj h
      exact ⟨[], l, rfl, hp, by intro b hb; simp at hb⟩
    · rw [List.find?_cons_of_neg _ (by simpa using hp)] at h
      obtain ⟨pre, post, rfl, hc, hpre⟩ := ih c h
      refine ⟨a :: pre, post, rfl, hc, ?_⟩
      intro b hb
      rcases List.mem_cons.mp hb with rfl | hb
      · simpa using hp
      · exact hpre b hb

/-- Claim C6: the classifier returns the first declared column name
containing the case-insensitive substring `"time"`; when no name
matches, it returns no time column, and `main` then falls back to the
row-ordinal x-axis (total function, no error path). -/
theorem claim_C6 (names : List String) :
    (find_timestamp_column names = none ↔ ∀ c ∈ names, containsTime c = false) ∧
    (∀ c, find_timestamp_column names = some c →
      ∃ pre post, names = pre ++ c :: post ∧ containsTime c = true ∧
        ∀ b ∈ pre, containsTime b = false) ∧
    (find_timestamp_column names = none →
      chooseXAxis (find_timestamp_column names) = XAxis.ordinal) := by
  refine ⟨?_, ?_, ?_⟩
  · unfold find_timestamp_column
    rw [List.find?_eq_none]
    constructor
    · intro h c hc; simpa using h c hc
    · intro h c hc; simp [h c hc]
  · intro c h
    exact find?_eq_some_split containsTime names c h
  · intro h
    rw [h]
    rfl

/-- Claim C6, witness: in `["elapsed", "Timestamp", "fps"]` the first
(and only) match is `"Timestamp"`, preceded by non-matching names. -/
theorem claim_C6_witness :
    ∃ pre post, ["elapsed", "Timestamp", "fps"] = pre ++ "Timestamp" :: post ∧
      containsTime "Timestamp" = true ∧ ∀ b ∈ pre, containsTime b = false :=
  (claim_C6 ["elapsed", "Timestamp", "fps"]).2.1 "Timestamp" (by rfl)

/-- Claim C7: the plottable set is exactly the numeric-typed columns
with the chosen time column removed when it is numeric-typed — every
name other than the chosen time column keeps its multiplicity from the
numeric set, the chosen time column's multiplicity drops by one (to
zero multiplicity when it was not numeric-typed, removing nothing), a
numeric-typed time column is removed by a first-occurrence erase, and
with no time column the numeric set is kept whole; the analysis reports
the error outcome (producing no plots) exactly when the plottable set
is empty. -/
theorem claim_C7 (cols : List Column) :
    (∀ x, some x ≠ find_timestamp_column (cols.map Column.name) →
      (find_numeric_columns cols (find_timestamp_column (cols.map Column.name))).count x =
        (numericNames cols).count x) ∧
    (∀ t, find_timestamp_column (cols.map Column.name) = some t →
      (find_numeric_columns cols (find_timestamp_column (cols.map Column.name))).count t =
        (numericNames cols).count t - 1) ∧
    (∀ t, find_timestamp_column (cols.map Column.name) = some t → t ∈ numericNames cols →
      find_numeric_columns cols (find_timestamp_column (cols.map Column.name)) =
        (numericNames cols).erase t) ∧
    (find_timestamp_column (cols.map Column.name) = none →
      find_numeric_columns cols (find_timestamp_column (cols.map Column.name)) =
        numericNames cols) ∧
    (find_numeric_columns cols (find_timestamp_column (cols.map Column.name)) = [] ↔
      analyze cols = AnalyzerOutcome.errorNoPlots) := by
  refine ⟨?_, ?_, ?_, ?_, ?_⟩
  · intro x hx
    cases h : find_timestamp_column (cols.map Column.name) with
    | none => rw [find_numeric_columns_none]
    | some t =>
      rw [h] at hx
      have hxt : x ≠ t := fun he => hx (by rw [he])
      rw [find_numeric_columns_some]
      by_cases ht : t ∈ numericNames cols
      · rw [if_pos ht, List.count_erase_of_ne hxt]
      · rw [if_neg ht]
  · intro t h
    rw [h, find_numeric_columns_some]
    by_cases ht : t ∈ numericNames cols
    · rw [if_pos ht, List.count_erase_self]
    · rw [if_neg ht]
      have hz : (numericNames cols).count t = 0 := List.count_eq_zero.mpr ht
      omega
  · intro t h ht
    rw [h, find_numeric_columns_some, if_pos ht]
  · intro h
    rw [h, find_numeric_columns_none]
  · constructor
    · intro hnil
      unfold analyze
      rw [if_pos (by simp [hnil])]
    · intro h
      unfold analyze at h
      by_cases hemp :
          (find_numeric_columns cols (find_timestamp_column (cols.map Column.name))).isEmpty
      · simpa using hemp
      · rw [if_neg hemp] at h
        exact AnalyzerOutcome.noConfusion h

/-- Claim C7, witness: a table whose sole numeric-typed column is the
chosen time column (`Timestamp` numeric, `label` non-numeric) has it
removed by the erase, leaving the plottable set empty, so the analysis
aborts with the error outcome and produces no plots. -/
theorem claim_C7_witness :
    find_numeric_columns [⟨"Timestamp", true⟩, ⟨"label", false⟩]
        (find_timestamp_column ([⟨"Timestamp", true⟩, ⟨"label", false⟩].map Column.name)) =
      (numericNames [⟨"Timestamp", true⟩, ⟨"label", false⟩]).erase "Timestamp" ∧
    analyze [⟨"Timestamp", true⟩, ⟨"label", false⟩] = AnalyzerOutcome.errorNoPlots :=
  ⟨(claim_C7 [⟨"Timestamp", true⟩, ⟨"label", false⟩]).2.2.1 "Timestamp" (by decide) (by decide),
   ((claim_C7 [⟨"Timestamp", true⟩, ⟨"label", false⟩]).2.2.2.2).mp (by decide)⟩

/-- The two field delimiters `main` tries, in order. -/
inductive Delim
  | comma
  | semicolon

/-- Outcome of one `pd.read_csv` attempt: a parsed table, a
`pd.errors.ParserError`, or any other exception. -/
inductive ParseResult (α : Type)
  | ok (t : α)
  | parserError
  | otherError

/-- Outcome of the loading stage of `main`. -/
inductive LoadOutcome (α : Type)
  | loaded (t : α)
  | abortedNoOutput
  | uncaught

/-- The try/retry structure of `main`'s loading stage: read with `,`;
on `ParserError` retry once with `;`, whose failure of any kind is
caught (`except Exception`) and turned into a diagnostic-and-return with
no output.  A non-`ParserError` exception on the first attempt is not
caught.  The first component records the delimiters attempted, in
order. -/
def loadCsv {α : Type} (attempt : Delim → ParseResult α) : List Delim × LoadOutcome α :=
  match attempt Delim.comma with
  | ParseResult.ok t => ([Delim.comma], LoadOutcome.loaded t)
  | ParseResult.parserError =>
    match attempt Delim.semicolon with
    | ParseResult.ok t => ([Delim.comma, Delim.semicolon], LoadOutcome.loaded t)
    | ParseResult.parserError => ([Delim.comma, Delim.semicolon], LoadOutcome.abortedNoOutput)
    | ParseResult.otherError => ([Delim.comma, Delim.semicolon], LoadOutcome.abortedNoOutput)
  | ParseResult.otherError => ([Delim.comma], LoadOutcome.uncaught)

/-- Claim C8: when the comma-delimited parse fails with a parse error,
exactly one retry happens, with the semicolon delimiter (the attempt
trace is `[comma, semicolon]`); a successful retry loads the table, and
a failed retry aborts with no output produced. -/
theorem claim_C8 {α : Type} (attempt : Delim → ParseResult α)
    (h : attempt Delim.comma = ParseResult.parserError) :
    (loadCsv attempt).1 = [Delim.comma, Delim.semicolon] ∧
    (∀ t, attempt Delim.semicolon = ParseResult.ok t →
      (loadCsv attempt).2 = LoadOutcome.loaded t) ∧
    ((∀ t, attempt Delim.semicolon ≠ ParseResult.ok t) →
      (loadCsv attempt).2 = LoadOutcome.abortedNoOutput) := by
  refine ⟨?_, ?_, ?_⟩
  · unfold loadCsv
    rw [h]
    cases hs : attempt Delim.semicolon <;> rfl
  · intro t ht
    unfold loadCsv
    rw [h, ht]
  · intro hno
    unfold loadCsv
    rw [h]
    cases hs : attempt Delim.semicolon with
    | ok t => exact absurd hs (hno t)
    | parserError => rfl
    | otherError => rfl

/-- Claim C8, witness: a source that parse-errors under comma and parses
under semicolon is loaded via the fallback path after both attempts. -/
theorem claim_C8_witness :
    (loadCsv (fun d => match d with
      | Delim.comma => ParseResult.parserError
      | Delim.semicolon => ParseResult.ok (0 : ℕ))).1 = [Delim.comma, Delim.semicolon] ∧
    (loadCsv (fun d => match d with
      | Delim.comma => ParseResult.parserError
      | Delim.semicolon => ParseResult.ok (0 : ℕ))).2 = LoadOutcome.loaded 0 :=
  ⟨(claim_C8 _ rfl).1, (claim_C8 _ rfl).2.1 0 rfl⟩

/-! ## fps_tracker.py : the sampling loop -/

/-- What `pygetwindow.getActiveWindow()` can report: a window carrying a
title, no active window (`None`), or a raised `PyGetWindowException`. -/
inductive WindowQuery
  | window (title : String)
  | noWindow
  | failure

/-- `get_active_window_title()`: the window's title when one is active,
the string `'N/A'` when the platform reports no active window, and the
string `'Desktop'` when the query raises `PyGetWindowException` (the
exception is caught, so the call always returns). -/
def get_active_window_title : WindowQuery → String
  | WindowQuery.window t => t
  | WindowQuery.noWindow => "N/A"
  | WindowQuery.failure => "Desktop"

/-- round to the nearest integer, ties to even. -/
def roundHalfEven (q : ℚ) : ℤ :=
  if Int.fract q < 1 / 2 then ⌊q⌋
  else if 1 / 2 < Int.fract q then ⌊q⌋ + 1
  else if ⌊q⌋ % 2 = 0 then ⌊q⌋ else ⌊q⌋ + 1

/-- the two-decimal value written by the format `f"{fps:.2f}"`. -/
def round2 (q : ℚ) : ℚ := (roundHalfEven (q * 100) : ℚ) / 100

/-- The mutable state of `run_tracker`'s inner loop: the rolling
`frame_count`, the flush anchor `last_log_time`, and the data rows
(rate, window label) appended to the log so far. -/
structure TrackerState where
  frameCount : ℕ
  lastLogTime : ℚ
  rows : List (ℚ × String)

/-- One iteration of the `while True` body after the duration check:
grab a frame (`frame_count += 1`), then if at least one second has
passed since the last flush, append one row with
`fps = frame_count / elapsed_time` (guarded against a non-positive
interval) formatted to two decimals and the current window label, reset
the rolling counter to zero and move the flush anchor to the current
instant; otherwise leave the flush state untouched. -/
def loopIter (s : TrackerState) (currentTime : ℚ) (wq : WindowQuery) : TrackerState :=
  let fc := s.frameCount + 1
  if 1 ≤ currentTime - s.lastLogTime then
    let elapsed := currentTime - s.lastLogTime
    let fps := if 0 < elapsed then (fc : ℚ) / elapsed else 0
    { frameCount := 0,
      lastLogTime := currentTime,
      rows := s.rows ++ [(round2 fps, get_active_window_title wq)] }
  else
    { s with frameCount := fc }

/-- The loop run over a finite trace of iterations, each supplying the
wall-clock instant observed by `time.time()` and the window-query
outcome of that iteration. -/
def runLoop (s : TrackerState) : List (ℚ × WindowQuery) → TrackerState
  | [] => s
  | (t, w) :: rest => runLoop (loopIter s t w) rest

/-- The number of 1-second boundaries a trace crosses: an iteration
crosses a boundary when its instant is at least one second past the
anchor, which then moves to that instant. -/
def countBoundaries (last : ℚ) : List (ℚ × WindowQuery) → ℕ
  | [] => 0
  | (t, _) :: rest =>
    if 1 ≤ t - last then countBoundaries t rest + 1 else countBoundaries last rest

/-- equation lemma for `countBoundaries` on a cons trace. -/
lemma countBoundaries_cons (last t : ℚ) (w : WindowQuery) (rest : List (ℚ × WindowQuery)) :
    countBoundaries last ((t, w) :: rest) =
      if 1 ≤ t - last then countBoundaries t rest + 1 else countBoundaries last rest := rfl

/-- behaviour of a boundary iteration: one row is flushed carrying the
rounded rate and the queried label, the counter resets, the anchor
moves. -/
lemma loopIter_boundary (s : TrackerState) (t : ℚ) (w : WindowQuery)
    (h : 1 ≤ t - s.lastLogTime) :
    (loopIter s t w).rows =
      s.rows ++ [(round2 (((s.frameCount : ℚ) + 1) / (t - s.lastLogTime)),
        get_active_window_title w)] ∧
    (loopIter s t w).frameCount = 0 ∧
    (loopIter s t w).lastLogTime = t := by
  have hpos : 0 < t - s.lastLogTime := lt_of_lt_of_le one_pos h
  unfold loopIter
  rw [if_pos h]
  dsimp only
  rw [if_pos hpos]
  refine ⟨?_, rfl, rfl⟩
  push_cast
  rfl

/-- Claim C2: a flush happens in an iteration exactly when at least one
second of wall-clock time has passed since the anchor; the flushed row
carries `frames_since_flush / elapsed_since_flush` rounded to two
decimals (the counter including the current iteration's frame, and the
division guard moot since the elapsed time is ≥ 1 > 0); afterwards the
rolling counter is zero and the anchor is the current instant.  Below
the boundary nothing is flushed and only the counter advances. -/
theorem claim_C2 (s : TrackerState) (t : ℚ) (w : WindowQuery) :
    (1 ≤ t - s.lastLogTime →
      (loopIter s t w).rows =
        s.rows ++ [(round2 (((s.frameCount : ℚ) + 1) / (t - s.lastLogTime)),
          get_active_window_title w)] ∧
      (loopIter s t w).frameCount = 0 ∧
      (loopIter s t w).lastLogTime = t) ∧
    (t - s.lastLogTime < 1 →
      (loopIter s t w).rows = s.rows ∧
      (loopIter s t w).frameCount = s.frameCount + 1 ∧
      (loopIter s t w).lastLogTime = s.lastLogTime) := by
  constructor
  · exact loopIter_boundary s t w
  · intro h
    unfold loopIter
    rw [if_neg (by linarith)]
    exact ⟨rfl, rfl, rfl⟩

/-- Claim C2, witness: from a fresh state, an iteration at instant 2
with one frame counted flushes the row `(round2 (1/2), "Game")` and
resets the counter and anchor. -/
theorem claim_C2_witness :
    (loopIter ⟨0, 0, []⟩ 2 (WindowQuery.window "Game")).rows =
      [] ++ [(round2 ((((0 : ℕ) : ℚ) + 1) / ((2 : ℚ) - 0)),
        get_active_window_title (WindowQuery.window "Game"))] ∧
    (loopIter ⟨0, 0, []⟩ 2 (WindowQuery.window "Game")).frameCount = 0 ∧
    (loopIter ⟨0, 0, []⟩ 2 (WindowQuery.window "Game")).lastLogTime = 2 :=
  (claim_C2 ⟨0, 0, []⟩ 2 (WindowQuery.window "Game")).1 (by norm_num)

/-- Claim C4, counterexample: when the platform reports no active window
(`getActiveWindow()` returns `None`), the recorded label is `'N/A'`, not
the `'Desktop'` fallback the claim states; `'Desktop'` is substituted
only when the query raises. -/
theorem claim_C4_counterexample :
    get_active_window_title WindowQuery.noWindow = "N/A" ∧
    get_active_window_title WindowQuery.noWindow ≠ "Desktop" := by
  constructor
  · rfl
  · intro h
    simp [get_active_window_title] at h

/-- Claim C4, amended: a window-query failure substitutes the fallback
label `'Desktop'`, while a reported absence of an active window
substitutes `'N/A'`; in both cases the call returns normally and a
boundary iteration still appends its row with that label, so neither
condition aborts the run. -/
theorem claim_C4_amended :
    get_active_window_title WindowQuery.failure = "Desktop" ∧
    get_active_window_title WindowQuery.noWindow = "N/A" ∧
    (∀ t, get_active_window_title (WindowQuery.window t) = t) ∧
    (∀ (s : TrackerState) (time : ℚ), 1 ≤ time - s.lastLogTime →
      ∃ rate, (loopIter s time WindowQuery.failure).rows = s.rows ++ [(rate, "Desktop")]) := by
  refine ⟨rfl, rfl, fun t => rfl, ?_⟩
  intro s time h
  exact ⟨_, (loopIter_boundary s time WindowQuery.failure h).1⟩

/-- Claim C4, amended, witness: a boundary iteration under a failing
window query appends a `'Desktop'` row. -/
theorem claim_C4_amended_witness :
    get_active_window_title WindowQuery.failure = "Desktop" ∧
    ∃ rate, (loopIter ⟨0, 0, []⟩ 1 WindowQuery.failure).rows = [] ++ [(rate, "Desktop")] :=
  ⟨claim_C4_amended.1, claim_C4_amended.2.2.2 ⟨0, 0, []⟩ 1 (by norm_num)⟩

/-- Claim C5: over any iteration trace, the number of rows appended
equals the number of 1-second boundaries crossed — each boundary
iteration appends exactly one row and every other iteration appends
none. -/
theorem claim_C5 (evts : List (ℚ × WindowQuery)) (s : TrackerState) :
    (runLoop s evts).rows.length = s.rows.length + countBoundaries s.lastLogTime evts := by
  induction evts generalizing s with
  | nil => rfl
  | cons e rest ih =>
    obtain ⟨t, w⟩ := e
    show (runLoop (loopIter s t w) rest).rows.length = _
    rw [ih (loopIter s t w)]
    by_cases h : 1 ≤ t - s.lastLogTime
    · have hrows : (loopIter s t w).rows.length = s.rows.length + 1 := by
        unfold loopIter
        rw [if_pos h]
        simp
      have hlast : (loopIter s t w).lastLogTime = t := by
        unfold loopIter
        rw [if_pos h]
      rw [hrows, hlast, countBoundaries_cons, if_pos h]
      omega
    · have hrows : (loopIter s t w).rows = s.rows := by
        unfold loopIter
        rw [if_neg h]
      have hlast : (loopIter s t w).lastLogTime = s.lastLogTime := by
        unfold loopIter
        rw [if_neg h]
      rw [hrows, hlast, countBoundaries_cons, if_neg h]

/-! ## fps_tracker.py : CLI duration handling (`__main__`)

The duration token is accepted when it equals `'-infinite'`
case-insensitively, and otherwise fed to `int(token.lstrip('-'))`.
`pyInt?` models Python's `int(str)`: surrounding ASCII whitespace is
ignored, one optional leading sign is allowed, and the digits may be
separated by single underscores between digit groups. -/

/-- the whitespace characters `int` ignores around the token. -/
def isPySpace (c : Char) : Bool :=
  c == ' ' || c == '\t' || c == '\n' || c == '\r' || c == '\x0b' || c == '\x0c'

/-- strip whitespace from both ends. -/
def stripWs (l : List Char) : List Char :=
  ((l.dropWhile isPySpace).reverse.dropWhile isPySpace).reverse

/-- an ASCII decimal digit. -/
def isAsciiDigit (c : Char) : Bool := decide (48 ≤ c.toNat ∧ c.toNat ≤ 57)

/-- numeric value of an ASCII digit. -/
def digitVal (c : Char) : ℕ := c.toNat - 48

/-- digits with single-underscore group separators, accumulator style;
`afterSep` records that the previous character was an underscore (which
must be followed by a digit). -/
def parseDigitsCore (acc : ℕ) (afterSep : Bool) : List Char → Option ℕ
  | [] => if afterSep then none else some acc
  | c :: rest =>
    if isAsciiDigit c then parseDigitsCore (10 * acc + digitVal c) false rest
    else if c == '_' && !afterSep then parseDigitsCore acc true rest
    else none

/-- a nonempty digit sequence (with underscore separators), which must
start with a digit. -/
def parseDigits : List Char → Option ℕ
  | [] => none
  | c :: rest => if isAsciiDigit c then parseDigitsCore (digitVal c) false rest else none

/-- Python `int(s)` on a decimal string: strip surrounding whitespace,
accept one optional sign, then a digit sequence; `none` models
`ValueError`. -/
def pyInt? (s : String) : Option ℤ :=
  match stripWs s.data with
  | [] => none
  | c :: rest =>
    if c == '+' then (parseDigits rest).map (fun n => (n : ℤ))
    else if c == '-' then (parseDigits rest).map (fun n => -(n : ℤ))
    else (parseDigits (c :: rest)).map (fun n => (n : ℤ))

/-- Python `s.lstrip('-')`: drop every leading `'-'`. -/
def lstripDash (s : String) : String := String.mk (s.data.dropWhile (fun c => c == '-'))

/-- The duration `run_tracker` receives: the `'infinite'` sentinel or a
number of seconds. -/
inductive PyDuration
  | infinite
  | seconds (n : ℤ)
deriving DecidableEq

/-- The duration validation of `__main__`: the token `'-infinite'`
(case-insensitively) selects the unbounded sentinel; otherwise the token
is stripped of leading `'-'` characters and converted with `int`, a
`ValueError` yielding `none`. -/
def parseDurationArg (s : String) : Option PyDuration :=
  if pyLower s = "-infinite" then some PyDuration.infinite
  else (pyInt? (lstripDash s)).map PyDuration.seconds

/-- Outcome of the `__main__` block: diagnostic and `exit(1)` before any
capture, or a call to `run_tracker` with the parsed duration. -/
inductive CliOutcome
  | exit1
  | runTracker (d : PyDuration)
deriving DecidableEq

/-- `__main__` after argument parsing: invalid duration syntax exits
with status 1 without starting any capture, otherwise the tracker runs
with the parsed duration. -/
def samplerMain (s : String) : CliOutcome :=
  match parseDurationArg s with
  | none => CliOutcome.exit1
  | some d => CliOutcome.runTracker d

/-- decimal value of a digit string. -/
def natOfDigits (ds : List Char) : ℕ := ds.foldl (fun a c => 10 * a + digitVal c) 0

/-- Claim C9: a duration token that is neither the case-insensitive
sentinel `'-infinite'` nor (after dash-stripping) a valid integer token
makes the process exit with status 1 without starting any capture; the
sentinel runs the tracker unbounded; a valid integer token runs the
tracker with that value. -/
theorem claim_C9 (s : String) :
    (pyLower s ≠ "-infinite" → pyInt? (lstripDash s) = none →
      samplerMain s = CliOutcome.exit1) ∧
    (pyLower s = "-infinite" →
      samplerMain s = CliOutcome.runTracker PyDuration.infinite) ∧
    (pyLower s ≠ "-infinite" → ∀ n, pyInt? (lstripDash s) = some n →
      samplerMain s = CliOutcome.runTracker (PyDuration.seconds n)) := by
  refine ⟨?_, ?_, ?_⟩
  · intro h1 h2
    unfold samplerMain parseDurationArg
    rw [if_neg h1, h2]
    rfl
  · intro h1
    unfold samplerMain parseDurationArg
    rw [if_pos h1]
  · intro h1 n h2
    unfold samplerMain parseDurationArg
    rw [if_neg h1, h2]
    rfl

/-- Claim C9, witness: `'abc'` exits with status 1, `'60'` runs the
tracker for 60 seconds. -/
theorem claim_C9_witness :
    samplerMain "abc" = CliOutcome.exit1 ∧
    samplerMain "60" = CliOutcome.runTracker (PyDuration.seconds 60) :=
  ⟨(claim_C9 "abc").1 (by decide) (by decide),
   (claim_C9 "60").2.2 (by decide) 60 (by decide)⟩

/-- Claim C10, counterexample: the token `' -5'` (leading space) is not
the sentinel, its leading character is not a dash so `lstrip('-')`
leaves it unchanged, and Python's `int` ignores the whitespace and
accepts the sign — so the parsed duration is `-5` and a negative
duration is passed to the tracker, contradicting the claim that one
never is. -/
theorem claim_C10_counterexample :
    parseDurationArg " -5" = some (PyDuration.seconds (-5)) ∧
    samplerMain " -5" = CliOutcome.runTracker (PyDuration.seconds (-5)) ∧
    (-5 : ℤ) < 0 :=
  ⟨by decide, by decide, by decide⟩

/-- digit bounds as naturals. -/
lemma digit_bounds (c : Char) (h : isAsciiDigit c = true) : 48 ≤ c.toNat ∧ c.toNat ≤ 57 := by
  simpa [isAsciiDigit] using h

/-- a digit is outside the uppercase range, so lowercasing fixes it. -/
lemma digit_asciiLower (c : Char) (h : isAsciiDigit c = true) : asciiLower c = c := by
  have hb := digit_bounds c h
  unfold asciiLower
  rw [if_neg (by omega)]

/-- a digit differs from any character outside the digit range. -/
lemma digit_ne_char (c : Char) (h : isAsciiDigit c = true) (d : Char)
    (hd : ¬(48 ≤ d.toNat ∧ d.toNat ≤ 57)) : (c == d) = false := by
  rw [beq_eq_false_iff_ne]
  intro hcd
  rw [hcd] at h
  exact hd (digit_bounds d h)

/-- a digit is not one of the whitespace characters. -/
lemma digit_not_space (c : Char) (h : isAsciiDigit c = true) : isPySpace c = false := by
  unfold isPySpace
  rw [digit_ne_char c h ' ' (by decide), digit_ne_char c h '\t' (by decide),
    digit_ne_char c h '\n' (by decide), digit_ne_char c h '\r' (by decide),
    digit_ne_char c h '\x0b' (by decide), digit_ne_char c h '\x0c' (by decide)]
  rfl

/-- whitespace stripping leaves an all-digit string unchanged. -/
lemma stripWs_digits (ds : List Char) (h1 : ds ≠ [])
    (h2 : ∀ c ∈ ds, isAsciiDigit c = true) : stripWs ds = ds := by
  obtain ⟨d, t, rfl⟩ := List.exists_cons_of_ne_nil h1
  unfold stripWs
  rw [List.dropWhile_cons_of_neg (by simp [digit_not_space d (h2 d (by simp))])]
  have hrev : (d :: t).reverse ≠ [] := by simp
  obtain ⟨e, u, heq⟩ := List.exists_cons_of_ne_nil hrev
  have he : e ∈ d :: t := by
    have hm : e ∈ (d :: t).reverse := by rw [heq]; exact List.mem_cons_self e u
    rw [List.mem_reverse] at hm
    exact hm
  rw [heq, List.dropWhile_cons_of_neg (by simp [digit_not_space e (h2 e he)]), ← heq,
    List.reverse_reverse]

/-- equation lemma for `parseDigitsCore` on a cons input. -/
lemma parseDigitsCore_cons (acc : ℕ) (b : Bool) (c : Char) (rest : List Char) :
    parseDigitsCore acc b (c :: rest) =
      if isAsciiDigit c then parseDigitsCore (10 * acc + digitVal c) false rest
      else if c == '_' && !b then parseDigitsCore acc true rest
      else none := rfl

/-- on an all-digit string the accumulator parser folds the digits. -/
lemma parseDigitsCore_digits (ds : List Char) :
    ∀ acc, (∀ c ∈ ds, isAsciiDigit c = true) →
      parseDigitsCore acc false ds = some (ds.foldl (fun a c => 10 * a + digitVal c) acc) := by
  induction ds with
  | nil => intro acc _; rfl
  | cons c t ih =>
    intro acc h
    have hc := h c (by simp)
    rw [parseDigitsCore_cons, if_pos hc, ih _ (fun x hx => h x (by simp [hx])),
      List.foldl_cons]

/-- a nonempty all-digit string parses to its decimal value. -/
lemma parseDigits_digits (ds : List Char) (h1 : ds ≠ [])
    (h2 : ∀ c ∈ ds, isAsciiDigit c = true) : parseDigits ds = some (natOfDigits ds) := by
  obtain ⟨d, t, rfl⟩ := List.exists_cons_of_ne_nil h1
  have hd := h2 d (by simp)
  show (if isAsciiDigit d then parseDigitsCore (digitVal d) false t else none) = _
  rw [if_pos hd, parseDigitsCore_digits t (digitVal d) (fun x hx => h2 x (by simp [hx]))]
  unfold natOfDigits
  rw [List.foldl_cons]
  norm_num

/-- `int` on a nonempty all-digit string returns its (nonnegative)
decimal value. -/
lemma pyInt_digits (ds : List Char) (h1 : ds ≠ [])
    (h2 : ∀ c ∈ ds, isAsciiDigit c = true) :
    pyInt? (String.mk ds) = some ((natOfDigits ds : ℤ)) := by
  obtain ⟨d, t, rfl⟩ := List.exists_cons_of_ne_nil h1
  unfold pyInt?
  rw [show (String.mk (d :: t)).data = d :: t from rfl,
    stripWs_digits (d :: t) (by simp) h2]
  show (if d == '+' then _ else if d == '-' then _
    else (parseDigits (d :: t)).map (fun n => (n : ℤ))) = _
  rw [digit_ne_char d (h2 d (by simp)) '+' (by decide),
    digit_ne_char d (h2 d (by simp)) '-' (by decide)]
  show (parseDigits (d :: t)).map (fun n => (n : ℤ)) = _
  rw [parseDigits_digits (d :: t) (by simp) h2]
  rfl

/-- Claim C10, amended: every leading `'-'` is stripped before integer
conversion, so a token `'-'` followed by a nonempty digit string is
accepted and interpreted as the (nonnegative) decimal value of the
digits; however, a negative duration can still reach the tracker, since
`int` tolerates surrounding whitespace, so a token whose dash is
sheltered behind leading whitespace (e.g. `' -5'`) converts to a
negative value. -/
theorem claim_C10_amended (ds : List Char) (h1 : ds ≠ [])
    (h2 : ∀ c ∈ ds, isAsciiDigit c = true) :
    parseDurationArg (String.mk ('-' :: ds)) = some (PyDuration.seconds (natOfDigits ds)) ∧
    0 ≤ ((natOfDigits ds : ℤ)) := by
  have hne : pyLower (String.mk ('-' :: ds)) ≠ "-infinite" := by
    intro hEq
    obtain ⟨d, t, rfl⟩ := List.exists_cons_of_ne_nil h1
    have hdata := congrArg String.data hEq
    rw [show (pyLower (String.mk ('-' :: d :: t))).data =
      asciiLower '-' :: asciiLower d :: t.map asciiLower from rfl] at hdata
    rw [show ("-infinite" : String).data =
      ['-', 'i', 'n', 'f', 'i', 'n', 'i', 't', 'e'] from rfl] at hdata
    injection hdata with hhead htail
    injection htail with hsecond hrest
    rw [digit_asciiLower d (h2 d (by simp))] at hsecond
    have hb := digit_bounds d (h2 d (by simp))
    rw [hsecond] at hb
    exact absurd hb (by decide)
  refine ⟨?_, Int.natCast_nonneg _⟩
  unfold parseDurationArg
  rw [if_neg hne]
  have hl : lstripDash (String.mk ('-' :: ds)) = String.mk ds := by
    unfold lstripDash
    rw [show (String.mk ('-' :: ds)).data = '-' :: ds from rfl,
      List.dropWhile_cons_of_pos (by decide)]
    obtain ⟨d, t, rfl⟩ := List.exists_cons_of_ne_nil h1
    rw [List.dropWhile_cons_of_neg
      (by simp [digit_ne_char d (h2 d (by simp)) '-' (by decide)])]
  rw [hl, pyInt_digits ds h1 h2]
  rfl

/-- Claim C10, amended, witness: the token `'-60'` is accepted as the
positive duration 60. -/
theorem claim_C10_amended_witness :
    parseDurationArg (String.mk ['-', '6', '0']) =
      some (PyDuration.seconds (natOfDigits ['6', '0'])) ∧
    0 ≤ ((natOfDigits ['6', '0'] : ℤ)) :=
  claim_C10_amended ['6', '0'] (by decide) (by decide)

end FpsSpec
